import Mathlib

/-!
Verification development for the tradecow portfolio-rebalancing agent.

The Python modules `token_detector.py`, `config.py`, `btc_agent.py` and
`trading_engine.py` are shallowly embedded below.  Monetary quantities are
modelled as rationals, Python dictionaries keyed by strings as
insertion-ordered association lists, and optional dictionary fields as
`Option String`.
-/

/-- ASCII lowercase of a string, as Python `str.lower` acts on the ASCII
addresses used throughout the registry. -/
def strLower (s : String) : String := String.mk (s.data.map Char.toLower)

/-- Whether `pat` occurs at the front of `l`. -/
def charsAtFront : List Char → List Char → Bool
  | [], _ => true
  | _ :: _, [] => false
  | a :: as, b :: bs => a == b && charsAtFront as bs

/-- Whether `pat` occurs as a contiguous run inside `l`, as Python
`pat in s` on strings. -/
def charsWithin (pat : List Char) : List Char → Bool
  | [] => pat.isEmpty
  | c :: rest => charsAtFront pat (c :: rest) || charsWithin pat rest

/-- Python `pat in s` for strings. -/
def strContainsSub (s pat : String) : Bool := charsWithin pat.data s.data

/-- Python truthiness of an optional string: `None` and `""` are falsy. -/
def optTruthy : Option String → Bool
  | none => false
  | some s => !(s == "")

/-! ## token_detector.py -/

/-- `MultiChainTokenDetector.TOKEN_ADDRESSES`: the static registry, a nested
mapping symbol -> network -> address, in declaration order. -/
def TOKEN_ADDRESSES : List (String × List (String × String)) :=
  [ ("USDC",
      [ ("ethereum", "0xA0b86991c6218b36c1d19D4a2e9Eb0cE3606eB48"),
        ("arbitrum", "0xaf88d065e77c8cc2239327c5edb3a432268e5831"),
        ("optimism", "0x7f5c764cbc14f9669b88837ca1490cca17c31607"),
        ("base", "0x833589fCD6eDb6E08f4c7C32D4f71b54bdA02913"),
        ("polygon", "0x2791Bca1f2de4661ED88A30C99A7a9449Aa84174"),
        ("solana", "EPjFWdd5AufqSSqeM2qN1xzybapC8G4wEGGkZwyTDt1v") ]),
    ("USDbC",
      [ ("base", "0xd9aAEc86B65D86f6A7B5B1b0c42FFA531710b6CA") ]),
    ("WETH",
      [ ("ethereum", "0xC02aaA39b223FE8D0A0e5C4F27eAD9083C756Cc2"),
        ("arbitrum", "0x82aF49447D8a07e3bd95BD0d56f35241523fBab1"),
        ("optimism", "0x4200000000000000000000000000000000000006"),
        ("base", "0x4200000000000000000000000000000000000006"),
        ("polygon", "0x7ceB23fD6bC0adD59E62ac25578270cFf1b9f619"),
        ("solana", "7vfCXTUXx5WJV5JADk17DUJ4ksgau7utNKj4b963voxs") ]),
    ("WBTC",
      [ ("ethereum", "0x2260FAC5E5542a773Aa44fBCfeDf7C193bc2C599"),
        ("arbitrum", "0x2f2a2543B76A4166549F7aaB2e75Bef0aefC5B0f"),
        ("optimism", "0x68f180fcCe6836688e9084f035309E29Bf0A2095"),
        ("base", "0x236aa50979D5f3De3Bd1Eeb40E81137F22ab794b"),
        ("polygon", "0x1BFD67037B42Cf73acF2047067bd4F2C47D9BfD6"),
        ("solana", "3NZ9JMVBmGAqocybic2c7LQCJScmgsAZ6vQqTDzcqmJh") ]),
    ("ETH",
      [ ("ethereum", "0x0000000000000000000000000000000000000000"),
        ("arbitrum", "0x0000000000000000000000000000000000000000"),
        ("optimism", "0x0000000000000000000000000000000000000000"),
        ("base", "0x0000000000000000000000000000000000000000") ]),
    ("BTC",
      [ ("solana", "9n4nbM75f5Ui33ZbPYXn59EwSgE8CGsHtAeTH5YFeJ9E") ]),
    ("SOL",
      [ ("solana", "So11111111111111111111111111111111111111112"),
        ("ethereum", "0xD31a59c85aE9D8edEFeC411D448f90841571b89c"),
        ("arbitrum", "0x2bcC6D6CdBbDC0a4071e48bb3B969b06B3330c07") ]),
    ("USDT",
      [ ("ethereum", "0xdAC17F958D2ee523a2206206994597C13D831ec7"),
        ("arbitrum", "0xFd086bC7CD5C481DCC9C85ebE478A1C0b69FCbb9"),
        ("optimism", "0x94b008aA00579c1307B0EF2c499aD98a8ce58e58"),
        ("base", "0xfde4C96c8593536E31F229EA8f37b2ADa2699bb2"),
        ("polygon", "0xc2132D05D31c914a87C6611C10748AEb04B58e8F"),
        ("solana", "Es9vMFrzaCERmJfrF4H2FYD4KCoNkY11McCe8BenwNYB") ]),
    ("DAI",
      [ ("ethereum", "0x6B175474E89094C44Da98b954EedeAC495271d0F"),
        ("arbitrum", "0xDA10009cBd5D07dd0CeCc66161FC93D7c9000da1"),
        ("optimism", "0xDA10009cBd5D07dd0CeCc66161FC93D7c9000da1"),
        ("base", "0x50c5725949A6F0c72E6C4a641F24049A917DB0Cb"),
        ("polygon", "0x8f3Cf7ad23Cd3CaDbD9735AFf958023239c6A063") ]) ]

/-- Inner loop of the registry scan: first network of `chains` whose address
equals `addrLower` after lowercasing, returned with the symbol. -/
def scanChains (addrLower : String) (sym : String) :
    List (String × String) → Option (String × String)
  | [] => none
  | (chain, address) :: rest =>
      if strLower address == addrLower then some (sym, chain)
      else scanChains addrLower sym rest

/-- Outer loop of the registry scan over `TOKEN_ADDRESSES` entries, first
match in declaration order. -/
def scanTokens (addrLower : String) :
    List (String × List (String × String)) → Option (String × String)
  | [] => none
  | (sym, chains) :: rest =>
      match scanChains addrLower sym chains with
      | some r => some r
      | none => scanTokens addrLower rest

/-- `MultiChainTokenDetector._detect_specific_chain`. -/
def detect_specific_chain (chain_hint : String) : String :=
  if chain_hint == "" then "unknown"
  else
    let hl := strLower chain_hint
    if strContainsSub hl "evm" then "ethereum"
    else if strContainsSub hl "svm" || strContainsSub hl "solana" then "solana"
    else "unknown"

/-- The all-zero EVM address special-cased by the detector. -/
def zero_address : String := "0x0000000000000000000000000000000000000000"

/-- `MultiChainTokenDetector.detect_token_and_chain`: resolve an address and
an optional chain hint to a (symbol, network) pair. -/
def detect_token_and_chain (token_address : String) (chain_hint : Option String) :
    String × String :=
  if token_address == zero_address &&
      optTruthy chain_hint &&
      strContainsSub (strLower (chain_hint.getD "")) "evm" then
    ("ETH", "ethereum")
  else
    match scanTokens (strLower token_address) TOKEN_ADDRESSES with
    | some r => r
    | none =>
        ("UNKNOWN",
          if optTruthy chain_hint then detect_specific_chain (chain_hint.getD "")
          else "unknown")

/-- `MultiChainTokenDetector.get_wbtc_addresses`. -/
def get_wbtc_addresses : List (String × String) :=
  match TOKEN_ADDRESSES.find? (fun p => p.1 == "WBTC") with
  | some p => p.2
  | none => []

/-- `MultiChainTokenDetector.is_wbtc_address`. -/
def is_wbtc_address (token_address : String) : Bool :=
  get_wbtc_addresses.any (fun p => strLower p.2 == strLower token_address)

/-- The registry flattened to (symbol, network, address) triples in
declaration order. -/
def flatRegistry : List (String × String × String) :=
  TOKEN_ADDRESSES.flatMap (fun p => p.2.map (fun q => (p.1, q.1, q.2)))

/-- First (symbol, network) whose registry address equals the given address
up to ASCII case, under declaration order. -/
def firstMatch (token_address : String) : Option (String × String) :=
  (flatRegistry.find? (fun e => strLower e.2.2 == strLower token_address)).map
    (fun e => (e.1, e.2.1))

/-- Python built-in `abs` on rationals. -/
def pythonAbs (x : ℚ) : ℚ := if x < 0 then -x else x

/-! ## config.py -/

/-- `config.ChainConfig`. -/
structure ChainConfig where
  name : String
  chain_id : String
  specific_chain : String
  target_allocation : ℚ
deriving DecidableEq, Repr

/-- `Config.CHAINS`: the chain policy, in declaration order. -/
def Config.CHAINS : List (String × ChainConfig) :=
  [ ("ethereum", ⟨"Ethereum", "evm", "eth", 40/100⟩),
    ("arbitrum", ⟨"Arbitrum", "evm", "arbitrum", 25/100⟩),
    ("optimism", ⟨"Optimism", "evm", "optimism", 20/100⟩),
    ("base", ⟨"Base", "evm", "base", 15/100⟩) ]

/-- `Config.REBALANCE_THRESHOLD`. -/
def Config.REBALANCE_THRESHOLD : ℚ := 5/100

/-- `Config.MIN_TRADE_VALUE`. -/
def Config.MIN_TRADE_VALUE : ℚ := 10

/-! ## Portfolio snapshot records -/

/-- One entry of `portfolio["tokens"]`, with the fields the planning code
reads; optional fields model dictionary keys that may be absent. -/
structure TokenInfo where
  token : String
  amount : ℚ
  price : ℚ
  value : ℚ
  chain : Option String
  symbol : Option String
  specificChain : Option String
  chain_type : Option String
deriving DecidableEq, Repr

/-! ## btc_agent.py: PortfolioAnalyzer -/

/-- Python dict update `chain_values[c] = chain_values.get(c, 0) + v`,
preserving insertion order and appending a fresh key at the end. -/
def addChainValue : List (String × ℚ) → String → ℚ → List (String × ℚ)
  | [], c, v => [(c, v)]
  | p :: rest, c, v =>
      if p.1 == c then (p.1, p.2 + v) :: rest
      else p :: addChainValue rest c v

/-- Python dict lookup `d.get(c, 0)`. -/
def distGet : List (String × ℚ) → String → ℚ
  | [], _ => 0
  | p :: rest, c => if p.1 == c then p.2 else distGet rest c

/-- One iteration of the loop in
`PortfolioAnalyzer.analyze_chain_distribution`: WBTC holdings are detected by
registry address and their value accumulated under the detected network. -/
def distStep (acc : List (String × ℚ) × ℚ) (t : TokenInfo) :
    List (String × ℚ) × ℚ :=
  if is_wbtc_address t.token then
    (addChainValue acc.1
        (detect_token_and_chain t.token (some (t.chain.getD "evm"))).2 t.value,
      acc.2 + t.value)
  else acc

/-- The (chain_values, total_wbtc_value) accumulator after the loop in
`analyze_chain_distribution`. -/
def distAccum (tokens : List TokenInfo) : List (String × ℚ) × ℚ :=
  tokens.foldl distStep ([], 0)

/-- `PortfolioAnalyzer.analyze_chain_distribution`. -/
def analyze_chain_distribution (tokens : List TokenInfo) : List (String × ℚ) :=
  let acc := distAccum tokens
  if acc.2 > 0 then acc.1.map (fun p => (p.1, p.2 / acc.2)) else []

/-- A rebalance trade record as built by
`PortfolioAnalyzer.calculate_rebalance_trades`. -/
structure TradeIntent where
  chain : String
  chain_name : String
  current_pct : ℚ
  target_pct : ℚ
  drift : ℚ
  value_diff : ℚ
  action : String
deriving DecidableEq, Repr

/-- Loop of `calculate_rebalance_trades` over an arbitrary chain policy. -/
def rebalanceTradesAux (dist : List (String × ℚ)) (total : ℚ) :
    List (String × ChainConfig) → List TradeIntent
  | [] => []
  | (_, cc) :: rest =>
      let current_pct := distGet dist cc.specific_chain
      let target_pct := cc.target_allocation
      let drift := pythonAbs (current_pct - target_pct)
      (if drift > Config.REBALANCE_THRESHOLD then
        let current_value := current_pct * total
        let target_value := target_pct * total
        let value_diff := target_value - current_value
        if pythonAbs value_diff > Config.MIN_TRADE_VALUE then
          [{ chain := cc.specific_chain, chain_name := cc.name,
             current_pct := current_pct, target_pct := target_pct,
             drift := drift, value_diff := value_diff,
             action := if value_diff > 0 then "buy" else "sell" }]
        else []
      else []) ++ rebalanceTradesAux dist total rest

/-- `PortfolioAnalyzer.calculate_rebalance_trades`, iterating the configured
`Config.CHAINS` policy in declaration order. -/
def calculate_rebalance_trades (current_distribution : List (String × ℚ))
    (total_wbtc_value : ℚ) : List TradeIntent :=
  rebalanceTradesAux current_distribution total_wbtc_value Config.CHAINS

/-- The whole planning pipeline of one strategy cycle: distribution analysis
followed by rebalance planning. -/
def plan_pipeline (tokens : List TokenInfo) (total : ℚ) :
    List (String × ℚ) × List TradeIntent :=
  (analyze_chain_distribution tokens,
    calculate_rebalance_trades (analyze_chain_distribution tokens) total)

/-! ## trading_engine.py: TradingEngine.convert_to_wbtc -/

/-- The fixed conversion target: WBTC on Ethereum. -/
def target_wbtc_address : String := "0x2260FAC5E5542a773Aa44fBCfeDf7C193bc2C599"

/-- The trade request assembled by `TradingEngine.convert_to_wbtc` for one
holding (the arguments of `execute_trade`). -/
structure ConversionTrade where
  from_token : String
  to_token : String
  amount : ℚ
  from_chain : String
  from_specific : String
  to_chain : String
  to_specific : String
  reason : String
deriving DecidableEq, Repr

/-- `TradingEngine.convert_to_wbtc`: the ordered list of conversion trades
the engine submits for a snapshot. -/
def convert_to_wbtc : List TokenInfo → List ConversionTrade
  | [] => []
  | t :: rest =>
      let symbol := t.symbol.getD "UNKNOWN"
      let specific_chain := t.specificChain.getD "eth"
      let chain_type := t.chain_type.getD (t.chain.getD "evm")
      if symbol == "WBTC" || is_wbtc_address t.token then
        convert_to_wbtc rest
      else if t.value < Config.MIN_TRADE_VALUE then
        convert_to_wbtc rest
      else if t.amount ≤ 0 then
        convert_to_wbtc rest
      else
        { from_token := t.token, to_token := target_wbtc_address,
          amount := t.amount,
          from_chain :=
            if specific_chain == "svm" || chain_type == "svm" then "svm"
            else "evm",
          from_specific :=
            if specific_chain == "svm" || chain_type == "svm" then "svm"
            else specific_chain,
          to_chain := "evm", to_specific := "eth",
          reason := "Convert " ++ symbol ++ " to WBTC - BTC maximalist strategy"
          } :: convert_to_wbtc rest

/-- The holdings `convert_to_wbtc` keeps: not the target asset (by label or
by registry address), at least the minimum trade value, positive quantity. -/
def convKeep (t : TokenInfo) : Bool :=
  !((t.symbol.getD "UNKNOWN") == "WBTC" || is_wbtc_address t.token) &&
    decide (Config.MIN_TRADE_VALUE ≤ t.value) && decide (0 < t.amount)

/-- The conversion trade built for one kept holding. -/
def mkConversion (t : TokenInfo) : ConversionTrade :=
  { from_token := t.token, to_token := target_wbtc_address,
    amount := t.amount,
    from_chain :=
      if (t.specificChain.getD "eth") == "svm" ||
          (t.chain_type.getD (t.chain.getD "evm")) == "svm" then "svm"
      else "evm",
    from_specific :=
      if (t.specificChain.getD "eth") == "svm" ||
          (t.chain_type.getD (t.chain.getD "evm")) == "svm" then "svm"
      else t.specificChain.getD "eth",
    to_chain := "evm", to_specific := "eth",
    reason := "Convert " ++ (t.symbol.getD "UNKNOWN") ++
      " to WBTC - BTC maximalist strategy" }

/-- Sum of the values of an association list. -/
def sndSum (l : List (String × ℚ)) : ℚ := (l.map Prod.snd).sum

/-! ## Concrete snapshots used by the scenario theorems and witnesses -/

/-- Scenario B of the spec: 0.6 WBTC on Ethereum and 0.4 WBTC on Arbitrum,
both priced 60000. -/
def scenarioB : List TokenInfo :=
  [ { token := "0x2260FAC5E5542a773Aa44fBCfeDf7C193bc2C599", amount := 6/10,
      price := 60000, value := 36000, chain := some "evm", symbol := none,
      specificChain := none, chain_type := none },
    { token := "0x2f2a2543B76A4166549F7aaB2e75Bef0aefC5B0f", amount := 4/10,
      price := 60000, value := 24000, chain := some "evm", symbol := none,
      specificChain := none, chain_type := none } ]

/-- A priced WBTC holding on Ethereum worth 100. -/
def pricedHolding : TokenInfo :=
  { token := "0x2260FAC5E5542a773Aa44fBCfeDf7C193bc2C599", amount := 1,
    price := 100, value := 100, chain := some "evm", symbol := none,
    specificChain := none, chain_type := none }

/-- A WBTC holding on Arbitrum whose unit price is the 0 sentinel, so its
value is 5 * 0 = 0. -/
def zeroPriceHolding : TokenInfo :=
  { token := "0x2f2a2543B76A4166549F7aaB2e75Bef0aefC5B0f", amount := 5,
    price := 0, value := 0, chain := some "evm", symbol := none,
    specificChain := none, chain_type := none }

/-- Scenario C of the spec: one priced holding plus one zero-priced holding. -/
def scenarioC : List TokenInfo := [pricedHolding, zeroPriceHolding]

/-- A corrupt holding with negative quantity and hence negative value
(amount -1 at price 60). -/
def negativeHolding : TokenInfo :=
  { token := "0x2f2a2543B76A4166549F7aaB2e75Bef0aefC5B0f", amount := -1,
    price := 60, value := -60, chain := some "evm", symbol := none,
    specificChain := none, chain_type := none }

/-- A snapshot containing a negative-quantity holding. -/
def scenarioNeg : List TokenInfo := [pricedHolding, negativeHolding]

/-! ## Theorems -/

section
attribute [local semireducible] Rat.add Rat.mul Rat.inv Rat.sub

/-- Python `abs` agrees with the mathematical absolute value. -/
theorem pythonAbs_eq_abs (x : ℚ) : pythonAbs x = |x| := by
  unfold pythonAbs
  rcases lt_or_le x 0 with h | h
  · simp [h, abs_of_neg h]
  · simp [not_lt.mpr h, abs_of_nonneg h]

theorem sndSum_nil : sndSum [] = 0 := rfl

theorem sndSum_cons (p : String × ℚ) (l : List (String × ℚ)) :
    sndSum (p :: l) = p.2 + sndSum l := by
  simp [sndSum]

theorem sndSum_addChainValue (l : List (String × ℚ)) (c : String) (v : ℚ) :
    sndSum (addChainValue l c v) = sndSum l + v := by
  induction l with
  | nil => simp [addChainValue, sndSum]
  | cons p rest ih =>
      by_cases h : p.1 == c
      · simp [addChainValue, h, sndSum_cons]; ring
      · simp [addChainValue, h, sndSum_cons, ih]; ring

theorem foldl_distStep_invariant (tokens : List TokenInfo)
    (cv : List (String × ℚ)) (tot : ℚ) :
    sndSum (tokens.foldl distStep (cv, tot)).1 - (tokens.foldl distStep (cv, tot)).2 =
      sndSum cv - tot := by
  induction tokens generalizing cv tot with
  | nil => simp
  | cons t rest ih =>
      simp only [List.foldl_cons]
      by_cases h : is_wbtc_address t.token
      · simp only [distStep, h, if_pos]
        rw [ih]
        rw [sndSum_addChainValue]
        ring
      · simp only [distStep, h]
        simp only [Bool.false_eq_true, if_false]
        exact ih cv tot

theorem distAccum_total_eq_sndSum (tokens : List TokenInfo) :
    sndSum (distAccum tokens).1 = (distAccum tokens).2 := by
  have h := foldl_distStep_invariant tokens [] 0
  rw [sndSum_nil] at h
  unfold distAccum
  linarith [h]

theorem sndSum_map_div (l : List (String × ℚ)) (T : ℚ) :
    sndSum (l.map (fun p => (p.1, p.2 / T))) = sndSum l / T := by
  induction l with
  | nil => simp [sndSum]
  | cons p rest ih =>
      simp [List.map_cons, sndSum_cons, ih, add_div]

theorem distGet_map_div (l : List (String × ℚ)) (T : ℚ) (c : String) :
    distGet (l.map (fun p => (p.1, p.2 / T))) c = distGet l c / T := by
  induction l with
  | nil => simp [distGet]
  | cons p rest ih =>
      by_cases h : p.1 == c
      · simp [distGet, h]
      · simp [distGet, h, ih]

/-- C2: for every snapshot, when the total matched value is positive every
fraction is the network value divided by the total and the fractions sum to
exactly 1 (hence within any tolerance), and when the total matched value is
0 the returned mapping is empty. -/
theorem C2_fraction_semantics (tokens : List TokenInfo) :
    ((distAccum tokens).2 > 0 →
      (∀ c, distGet (analyze_chain_distribution tokens) c =
          distGet (distAccum tokens).1 c / (distAccum tokens).2) ∧
        sndSum (analyze_chain_distribution tokens) = 1) ∧
    ((distAccum tokens).2 = 0 → analyze_chain_distribution tokens = []) := by
  constructor
  · intro hpos
    unfold analyze_chain_distribution
    simp only [hpos, if_pos]
    constructor
    · intro c
      exact distGet_map_div _ _ c
    · rw [sndSum_map_div, distAccum_total_eq_sndSum]
      exact div_self (ne_of_gt hpos)
  · intro hzero
    unfold analyze_chain_distribution
    simp [hzero]

/-- Witness for C2 at the Scenario B snapshot: the total is positive and the
fractions sum to 1. -/
theorem C2_fraction_semantics_witness :
    distGet (analyze_chain_distribution scenarioB) "ethereum" =
        distGet (distAccum scenarioB).1 "ethereum" / (distAccum scenarioB).2 ∧
      sndSum (analyze_chain_distribution scenarioB) = 1 :=
  ⟨((C2_fraction_semantics scenarioB).1 (by decide)).1 "ethereum",
    ((C2_fraction_semantics scenarioB).1 (by decide)).2⟩

/-- C9: the planning pipeline is a pure function of the snapshot and total:
two runs on identical inputs give identical ordered output. -/
theorem C9_pipeline_deterministic (tokens : List TokenInfo) (total : ℚ) :
    plan_pipeline tokens total = plan_pipeline tokens total := rfl

/-- C1 (code behaviour at the Scenario B snapshot): the computed fractions
are ethereum 0.6 and arbitrum 0.4, but the emitted trades are ethereum
(buy, drift 0.40), arbitrum (sell, drift 0.15), optimism (buy, drift 0.20),
base (buy, drift 0.15): the planner looks the Ethereum fraction up under the
key "eth" while the distribution stores it under "ethereum", so Ethereum is
treated as holding 0. -/
theorem C1_scenarioB_behaviour :
    analyze_chain_distribution scenarioB = [("ethereum", 3/5), ("arbitrum", 2/5)] ∧
    calculate_rebalance_trades (analyze_chain_distribution scenarioB) 60000 =
      [ { chain := "eth", chain_name := "Ethereum", current_pct := 0,
          target_pct := 2/5, drift := 2/5, value_diff := 24000, action := "buy" },
        { chain := "arbitrum", chain_name := "Arbitrum", current_pct := 2/5,
          target_pct := 1/4, drift := 3/20, value_diff := -9000, action := "sell" },
        { chain := "optimism", chain_name := "Optimism", current_pct := 0,
          target_pct := 1/5, drift := 1/5, value_diff := 12000, action := "buy" },
        { chain := "base", chain_name := "Base", current_pct := 0,
          target_pct := 3/20, drift := 3/20, value_diff := 9000, action := "buy" } ] := by
  constructor
  · decide
  · decide

/-- C4 (counterexample): a snapshot containing a holding with negative
quantity and negative value is not rejected: the planner silently builds a
full distribution (with a fraction above 1) and a full trade plan instead of
aborting with an error. -/
theorem C4_negative_holding_no_error :
    analyze_chain_distribution scenarioNeg = [("ethereum", 5/2), ("arbitrum", -3/2)] ∧
    calculate_rebalance_trades (analyze_chain_distribution scenarioNeg) 40 =
      [ { chain := "eth", chain_name := "Ethereum", current_pct := 0,
          target_pct := 2/5, drift := 2/5, value_diff := 16, action := "buy" },
        { chain := "arbitrum", chain_name := "Arbitrum", current_pct := -3/2,
          target_pct := 1/4, drift := 7/4, value_diff := 70, action := "buy" } ] := by
  constructor
  · decide
  · decide

/-- C4 (amended): the planning core performs no validation of holdings: the
total it computes is simply the sum of the values of all registry-matched
holdings, negative values included, and every snapshot yields a result
rather than an error. -/
theorem C4_no_validation (tokens : List TokenInfo) :
    (distAccum tokens).2 =
      ((tokens.filter (fun t => is_wbtc_address t.token)).map TokenInfo.value).sum := by
  suffices h : ∀ (cv : List (String × ℚ)) (tot : ℚ),
      (tokens.foldl distStep (cv, tot)).2 =
        tot + ((tokens.filter (fun t => is_wbtc_address t.token)).map TokenInfo.value).sum by
    have := h [] 0
    unfold distAccum
    rw [this, zero_add]
  induction tokens with
  | nil => intro cv tot; simp
  | cons t rest ih =>
      intro cv tot
      by_cases h : is_wbtc_address t.token
      · have hf : (t :: rest).filter (fun x => is_wbtc_address x.token) =
            t :: rest.filter (fun x => is_wbtc_address x.token) :=
          List.filter_cons_of_pos (by simpa using h)
        rw [List.foldl_cons, hf, List.map_cons, List.sum_cons]
        simp only [distStep, h, if_pos]
        rw [ih]
        ring
      · have hf : (t :: rest).filter (fun x => is_wbtc_address x.token) =
            rest.filter (fun x => is_wbtc_address x.token) :=
          List.filter_cons_of_neg (by simpa using h)
        rw [List.foldl_cons, hf]
        simp only [distStep, h, Bool.false_eq_true, if_false]
        exact ih cv tot

theorem distGet_addChainValue_zero (l : List (String × ℚ)) (c x : String) :
    distGet (addChainValue l c 0) x = distGet l x := by
  induction l with
  | nil =>
      by_cases h : c == x
      · simp [addChainValue, distGet, h]
      · simp [addChainValue, distGet, h]
  | cons p rest ih =>
      by_cases h : p.1 == c
      · simp [addChainValue, h, distGet]
      · simp [addChainValue, h, distGet, ih]

/-- C5 (counterexample): in Scenario C the zero-priced (hence zero-valued)
Arbitrum holding does create an entry in the returned distribution mapping:
the mapping is [(ethereum, 1), (arbitrum, 0)], not [(ethereum, 1)]. -/
theorem C5_zero_price_creates_entry :
    analyze_chain_distribution scenarioC = [("ethereum", 1), ("arbitrum", 0)] ∧
    analyze_chain_distribution scenarioC ≠ [("ethereum", 1)] := by
  constructor
  · decide
  · decide

/-- C5 (amended): a holding whose unit price is exactly 0 (so its value
quantity * price is 0) contributes nothing to the total matched value and
nothing to any network fraction: appending it to a snapshot leaves the total
and every network lookup of the returned mapping unchanged (though it may
add a zero-valued entry to the mapping). -/
theorem C5_zero_price_contributes_nothing (tokens : List TokenInfo)
    (t : TokenInfo) (hv : t.value = t.amount * t.price) (hp : t.price = 0) :
    (distAccum (tokens ++ [t])).2 = (distAccum tokens).2 ∧
    ∀ c, distGet (analyze_chain_distribution (tokens ++ [t])) c =
      distGet (analyze_chain_distribution tokens) c := by
  have hv0 : t.value = 0 := by rw [hv, hp, mul_zero]
  have hacc : distAccum (tokens ++ [t]) = distStep (distAccum tokens) t := by
    unfold distAccum
    rw [List.foldl_append, List.foldl_cons, List.foldl_nil]
  constructor
  · rw [hacc]
    unfold distStep
    by_cases h : is_wbtc_address t.token
    · simp [h, hv0]
    · simp [h]
  · intro c
    unfold analyze_chain_distribution
    rw [hacc]
    unfold distStep
    by_cases h : is_wbtc_address t.token
    · simp only [h, if_pos, hv0, add_zero]
      by_cases hpos : (distAccum tokens).2 > 0
      · simp only [hpos, if_pos]
        rw [distGet_map_div, distGet_map_div, distGet_addChainValue_zero]
      · simp [hpos]
    · simp [h]

/-- Witness for C5 (amended) at the Scenario C holdings. -/
theorem C5_zero_price_contributes_nothing_witness :
    (distAccum ([pricedHolding] ++ [zeroPriceHolding])).2 =
        (distAccum [pricedHolding]).2 ∧
      distGet (analyze_chain_distribution ([pricedHolding] ++ [zeroPriceHolding]))
          "arbitrum" =
        distGet (analyze_chain_distribution [pricedHolding]) "arbitrum" :=
  ⟨(C5_zero_price_contributes_nothing [pricedHolding] zeroPriceHolding
      (by decide) (by decide)).1,
    (C5_zero_price_contributes_nothing [pricedHolding] zeroPriceHolding
      (by decide) (by decide)).2 "arbitrum"⟩

/-- C8: the conversion engine emits exactly one trade per holding that is
not already the target asset (by symbol label or registry address), has
value at least the minimum trade value and positive quantity, in the given
snapshot order: it equals a filter followed by a map. -/
theorem C8_convert_is_ordered_filter (tokens : List TokenInfo) :
    convert_to_wbtc tokens = (tokens.filter convKeep).map mkConversion := by
  induction tokens with
  | nil => rfl
  | cons t rest ih =>
      by_cases h1 : ((t.symbol.getD "UNKNOWN") == "WBTC" || is_wbtc_address t.token) = true
      · have hk : convKeep t = false := by
          simp [convKeep, h1]
        have hf : List.filter convKeep (t :: rest) = List.filter convKeep rest :=
          List.filter_cons_of_neg (by simp [hk])
        rw [hf, ← ih]
        simp [convert_to_wbtc, h1]
      · have h1f : ((t.symbol.getD "UNKNOWN") == "WBTC" || is_wbtc_address t.token) = false := by
          simpa using h1
        by_cases h2 : t.value < Config.MIN_TRADE_VALUE
        · have hk : convKeep t = false := by
            have hle : ¬ Config.MIN_TRADE_VALUE ≤ t.value := not_le.mpr h2
            simp [convKeep, hle]
          have hf : List.filter convKeep (t :: rest) = List.filter convKeep rest :=
            List.filter_cons_of_neg (by simp [hk])
          rw [hf, ← ih]
          simp [convert_to_wbtc, h1f, h2]
        · by_cases h3 : t.amount ≤ 0
          · have hk : convKeep t = false := by
              have hlt : ¬ (0 : ℚ) < t.amount := not_lt.mpr h3
              simp [convKeep, hlt]
            have hf : List.filter convKeep (t :: rest) = List.filter convKeep rest :=
              List.filter_cons_of_neg (by simp [hk])
            rw [hf, ← ih]
            simp [convert_to_wbtc, h1f, h2, h3]
          · have hk : convKeep t = true := by
              have hle : Config.MIN_TRADE_VALUE ≤ t.value := not_lt.mp h2
              have hlt : (0 : ℚ) < t.amount := not_le.mp h3
              simp [convKeep, h1f, hle, hlt]
            have hf : List.filter convKeep (t :: rest) = t :: List.filter convKeep rest :=
              List.filter_cons_of_pos hk
            rw [hf, List.map_cons, ← ih]
            simp [convert_to_wbtc, h1f, h2, h3, mkConversion]
/-- C3: every emitted rebalance trade records its genuinely computed current
fraction, drift and value delta, and both the drift and the absolute value
delta strictly exceed the configured threshold and minimum trade value; in
particular drift equal to the threshold, or an absolute delta at or below
the minimum, never yields an emission. -/
theorem C3_emission_conditions (chains : List (String × ChainConfig))
    (dist : List (String × ℚ)) (total : ℚ) (t : TradeIntent)
    (ht : t ∈ rebalanceTradesAux dist total chains) :
    (∃ p ∈ chains, t.chain = p.2.specific_chain ∧
      t.target_pct = p.2.target_allocation) ∧
    t.current_pct = distGet dist t.chain ∧
    t.drift = |t.current_pct - t.target_pct| ∧
    t.value_diff = t.target_pct * total - t.current_pct * total ∧
    t.drift > Config.REBALANCE_THRESHOLD ∧
    |t.value_diff| > Config.MIN_TRADE_VALUE := by
  induction chains with
  | nil => simp [rebalanceTradesAux] at ht
  | cons p rest ih =>
      obtain ⟨k, cc⟩ := p
      simp only [rebalanceTradesAux] at ht
      rw [List.mem_append] at ht
      rcases ht with hin | hin
      · split_ifs at hin with hd hv hb
        · simp only [List.mem_singleton] at hin
          subst hin
          refine ⟨⟨(k, cc), List.mem_cons_self _ _, rfl, rfl⟩,
            rfl, pythonAbs_eq_abs _, rfl, hd, ?_⟩
          rw [← pythonAbs_eq_abs]
          exact hv
        · simp only [List.mem_singleton] at hin
          subst hin
          refine ⟨⟨(k, cc), List.mem_cons_self _ _, rfl, rfl⟩,
            rfl, pythonAbs_eq_abs _, rfl, hd, ?_⟩
          rw [← pythonAbs_eq_abs]
          exact hv
        · simp at hin
        · simp at hin
      · obtain ⟨hex, hrest⟩ := ih hin
        obtain ⟨q, hq, h1, h2⟩ := hex
        exact ⟨⟨q, List.mem_cons_of_mem _ hq, h1, h2⟩, hrest⟩

/-- Witness for C3: with an empty distribution and total 1000 the Ethereum
policy entry emits a trade, and the theorem instantiates at it. -/
theorem C3_emission_conditions_witness :
    (∃ p ∈ Config.CHAINS, "eth" = p.2.specific_chain ∧
      (2/5 : ℚ) = p.2.target_allocation) ∧
    (0 : ℚ) = distGet [] "eth" ∧
    (2/5 : ℚ) = |(0 : ℚ) - 2/5| ∧
    (400 : ℚ) = (2/5 : ℚ) * 1000 - 0 * 1000 ∧
    (2/5 : ℚ) > Config.REBALANCE_THRESHOLD ∧
    |(400 : ℚ)| > Config.MIN_TRADE_VALUE :=
  C3_emission_conditions Config.CHAINS [] 1000
    { chain := "eth", chain_name := "Ethereum", current_pct := 0, target_pct := 2/5,
      drift := 2/5, value_diff := 400, action := "buy" } (by decide)

theorem rebalance_mem_policy (chains : List (String × ChainConfig))
    (dist : List (String × ℚ)) (total : ℚ) (t : TradeIntent)
    (ht : t ∈ rebalanceTradesAux dist total chains) :
    ∃ p ∈ chains, t.chain = p.2.specific_chain ∧ t.chain_name = p.2.name := by
  induction chains with
  | nil => simp [rebalanceTradesAux] at ht
  | cons p rest ih =>
      obtain ⟨k, cc⟩ := p
      simp only [rebalanceTradesAux] at ht
      rw [List.mem_append] at ht
      rcases ht with hin | hin
      · split_ifs at hin with hd hv hb
        · simp only [List.mem_singleton] at hin
          subst hin
          exact ⟨(k, cc), List.mem_cons_self _ _, rfl, rfl⟩
        · simp only [List.mem_singleton] at hin
          subst hin
          exact ⟨(k, cc), List.mem_cons_self _ _, rfl, rfl⟩
        · simp at hin
        · simp at hin
      · obtain ⟨q, hq, h1, h2⟩ := ih hin
        exact ⟨q, List.mem_cons_of_mem _ hq, h1, h2⟩

/-- C10: every trade the planner emits names the specific chain and display
name of some entry of the configured policy, so value held on registry
networks absent from the policy (polygon, solana) never produces a trade. -/
theorem C10_trades_name_policy_networks (dist : List (String × ℚ)) (total : ℚ)
    (t : TradeIntent) (ht : t ∈ calculate_rebalance_trades dist total) :
    (∃ p ∈ Config.CHAINS, t.chain = p.2.specific_chain ∧ t.chain_name = p.2.name) ∧
    t.chain ≠ "polygon" ∧ t.chain ≠ "solana" := by
  have h := rebalance_mem_policy Config.CHAINS dist total t ht
  refine ⟨h, ?_, ?_⟩
  · obtain ⟨p, hp, hc, _⟩ := h
    simp only [Config.CHAINS, List.mem_cons, List.not_mem_nil, or_false] at hp
    rcases hp with hp | hp | hp | hp <;> (subst hp; rw [hc]; decide)
  · obtain ⟨p, hp, hc, _⟩ := h
    simp only [Config.CHAINS, List.mem_cons, List.not_mem_nil, or_false] at hp
    rcases hp with hp | hp | hp | hp <;> (subst hp; rw [hc]; decide)

/-- Witness for C10: an overweight Arbitrum position produces a sell trade
naming the Arbitrum policy entry. -/
theorem C10_trades_name_policy_networks_witness :
    (∃ p ∈ Config.CHAINS,
        "arbitrum" = p.2.specific_chain ∧ "Arbitrum" = p.2.name) ∧
    "arbitrum" ≠ "polygon" ∧ "arbitrum" ≠ "solana" :=
  C10_trades_name_policy_networks [("arbitrum", 1)] 2000
    { chain := "arbitrum", chain_name := "Arbitrum", current_pct := 1,
      target_pct := 1/4, drift := 3/4, value_diff := -1500, action := "sell" }
    (by decide)

/-- C6: an address matching no registry entry resolves, for every hint, to
symbol UNKNOWN with the network guessed from the hint alone: an evm hint
gives ethereum, an svm or solana hint gives solana, anything else (including
no hint) gives the sentinel unknown; no error is possible. -/
theorem C6_unknown_address_degrades (addr : String) (hint : Option String)
    (h : scanTokens (strLower addr) TOKEN_ADDRESSES = none) :
    detect_token_and_chain addr hint =
      ("UNKNOWN",
        if strContainsSub (strLower (hint.getD "")) "evm" then "ethereum"
        else if strContainsSub (strLower (hint.getD "")) "svm" ||
            strContainsSub (strLower (hint.getD "")) "solana" then "solana"
        else "unknown") := by
  have hz : (addr == zero_address) = false := by
    by_cases heq : addr = zero_address
    · exfalso
      rw [heq] at h
      have hsc : scanTokens (strLower zero_address) TOKEN_ADDRESSES =
          some ("ETH", "ethereum") := by decide
      rw [hsc] at h
      exact Option.noConfusion h
    · exact beq_eq_false_iff_ne.mpr heq
  unfold detect_token_and_chain
  rw [hz]
  simp only [Bool.false_and, Bool.false_eq_true, if_false]
  rw [h]
  cases hint with
  | none => decide
  | some s =>
      by_cases hs : s = ""
      · subst hs
        decide
      · have ht : optTruthy (some s) = true := by simp [optTruthy, hs]
        rw [ht]
        simp only [if_true]
        unfold detect_specific_chain
        simp only [Option.getD_some]
        have hs' : (s == "") = false := beq_eq_false_iff_ne.mpr hs
        rw [hs']
        simp only [Bool.false_eq_true, if_false]

/-- Witness for C6: an unregistered address with hint evm resolves to
(UNKNOWN, ethereum). -/
theorem C6_unknown_address_degrades_witness :
    detect_token_and_chain "0xdeadbeef" (some "evm") = ("UNKNOWN", "ethereum") := by
  have h := C6_unknown_address_degrades "0xdeadbeef" (some "evm") (by decide)
  rw [h]
  decide

theorem scanChains_eq_find (a sym : String) (chains : List (String × String)) :
    scanChains a sym chains =
      (chains.find? (fun q => strLower q.2 == a)).map (fun q => (sym, q.1)) := by
  induction chains with
  | nil => rfl
  | cons q rest ih =>
      obtain ⟨c, ad⟩ := q
      by_cases h : (strLower ad == a) = true
      · simp [scanChains, h, List.find?_cons_of_pos]
      · simp only [scanChains, h, Bool.false_eq_true, if_false, ih]
        rw [List.find?_cons_of_neg _ (by simpa using h)]

theorem scanTokens_eq_find (a : String)
    (l : List (String × List (String × String))) :
    scanTokens a l =
      ((l.flatMap (fun p => p.2.map (fun q => (p.1, q.1, q.2)))).find?
          (fun e => strLower e.2.2 == a)).map (fun e => (e.1, e.2.1)) := by
  induction l with
  | nil => rfl
  | cons p rest ih =>
      obtain ⟨sym, chains⟩ := p
      simp only [scanTokens, List.flatMap_cons, List.find?_append]
      rw [scanChains_eq_find]
      have hmap : (chains.map (fun q => (sym, q.1, q.2))).find?
          (fun e => strLower e.2.2 == a) =
          (chains.find? (fun q => strLower q.2 == a)).map
            (fun q => (sym, q.1, q.2)) := by
        rw [List.find?_map]
        rfl
      rw [hmap]
      cases hfc : chains.find? (fun q => strLower q.2 == a) with
      | none =>
          simp only [Option.map_none', Option.none_or]
          exact ih
      | some q =>
          simp only [Option.map_some', Option.or_some]

/-- The registry scan agrees with the first match over the flattened
registry in declaration order. -/
theorem scanTokens_eq_firstMatch (addr : String) :
    scanTokens (strLower addr) TOKEN_ADDRESSES = firstMatch addr := by
  rw [scanTokens_eq_find]
  rfl

/-- C7: whenever an address matches some registry address up to ASCII case,
the detector returns the symbol and network of the first matching entry
under the registry's declaration order, for every hint; and resolution is a
pure function of its arguments. -/
theorem C7_first_declared_match_wins (addr : String) (hint : Option String)
    (r : String × String) (h : firstMatch addr = some r) :
    detect_token_and_chain addr hint = r ∧
    detect_token_and_chain addr hint = detect_token_and_chain addr hint := by
  refine ⟨?_, rfl⟩
  by_cases hz : addr = zero_address
  · have hr : r = ("ETH", "ethereum") := by
      rw [hz] at h
      have hfm : firstMatch zero_address = some ("ETH", "ethereum") := by decide
      rw [hfm] at h
      exact (Option.some_inj.mp h).symm
    subst hz
    rw [hr]
    unfold detect_token_and_chain
    by_cases hc : (zero_address == zero_address && optTruthy hint &&
        strContainsSub (strLower (hint.getD "")) "evm") = true
    · rw [if_pos hc]
    · rw [if_neg hc]
      have hsc : scanTokens (strLower zero_address) TOKEN_ADDRESSES =
          some ("ETH", "ethereum") := by decide
      rw [hsc]
  · have hz' : (addr == zero_address) = false := beq_eq_false_iff_ne.mpr hz
    unfold detect_token_and_chain
    rw [hz']
    simp only [Bool.false_and, Bool.false_eq_true, if_false]
    rw [scanTokens_eq_firstMatch, h]

/-- Witness for C7: the Ethereum WBTC address written in upper case resolves
to its first declared registry entry. -/
theorem C7_first_declared_match_wins_witness :
    detect_token_and_chain "0x2260FAC5E5542A773AA44FBCFEDF7C193BC2C599" none =
      ("WBTC", "ethereum") :=
  (C7_first_declared_match_wins "0x2260FAC5E5542A773AA44FBCFEDF7C193BC2C599"
    none ("WBTC", "ethereum") (by decide)).1

end
